import Mathlib

/-!
Verification of the round-trip flight selection coordinator and the booking
query filter of the flight-management front end.

The embedding is shallow: the Pinia store state becomes a plain record, each
store action becomes a pure state-transformer, and the getters become pure
functions of the state.  Timestamps (`departureTime`, `arrivalTime`) are ISO
strings parsed with `new Date(...)` in the source and compared numerically;
here they are modelled as epoch milliseconds (`Int`), so the JS `Date`
comparisons become integer comparisons.  JS `string.includes` becomes an
infix test on the character lists, `trim`/`toLowerCase` become `jsTrim` and
`jsToLower` over the character lists, and the `router.push` side effect
becomes an explicit `NavigationRequest` value returned next to the new
state.
Fields that no modelled operation reads (airline names, gates, baggage,
loading flags, fetch errors) are omitted from the records.
-/

/-- JS `s.includes(sub)`: `sub` occurs in `s` as a contiguous substring. -/
def jsIncludes (s sub : String) : Bool :=
  decide (sub.toList <:+: s.toList)

/-- JS `s.trim()`: strip leading and trailing whitespace, modelled on the
character list. -/
def jsTrim (s : String) : String :=
  ⟨((s.data.dropWhile Char.isWhitespace).reverse.dropWhile Char.isWhitespace).reverse⟩

/-- JS `s.toLowerCase()`: lower-case every character. -/
def jsToLower (s : String) : String :=
  ⟨s.data.map Char.toLower⟩

namespace FlightSel

/-- The fields of `FlightInterface` read by the flight store
(`src/unnamed/part_011`): identifier, route endpoints and the two
timestamps (epoch milliseconds). -/
structure FlightInterface where
  id : String
  originAirportCode : String
  destinationAirportCode : String
  departureTime : Int
  arrivalTime : Int
deriving DecidableEq, Repr

/-- The `FlightFilters` record of the flight store. -/
structure FlightFilters where
  origin : String
  destination : String
  status : String
  showInactive : Bool
  search : String
deriving DecidableEq, Repr

/-- `tripMode` is one of the string literals 'one-way' | 'round-trip'. -/
inductive TripMode where
  | oneWay
  | roundTrip
deriving DecidableEq, Repr

/-- The synchronous part of `FlightState`: the fetched flight list, the trip
mode, the filters and the selection triple.  (`loading` and the fetch `error`
belong to the HTTP side, which is external.) -/
structure FlightState where
  flights : List FlightInterface
  tripMode : TripMode
  filters : FlightFilters
  selectedDeparture : Option FlightInterface
  selectedReturn : Option FlightInterface
  selectionError : Option String
deriving DecidableEq, Repr

/-- The initial value of `filters` in the store's `state()` initializer,
also assigned by `resetFilters`. -/
def initialFilters : FlightFilters :=
  { origin := "", destination := "", status := "all", showInactive := false, search := "" }

/-- The `router.push` payload produced on successful validation: route name
plus the two flight identifiers carried in the query. -/
structure NavigationRequest where
  name : String
  departureFlightId : String
  returnFlightId : String
deriving DecidableEq, Repr

/-- Getter `filteredFlights`: in round-trip mode with a departure selected,
keep only flights departing strictly after the selected departure arrives;
otherwise the full list. -/
def filteredFlights (s : FlightState) : List FlightInterface :=
  match s.tripMode, s.selectedDeparture with
  | TripMode.roundTrip, some dep =>
      s.flights.filter (fun flight => decide (dep.arrivalTime < flight.departureTime))
  | _, _ => s.flights

/-- Action `resetFilters`: restore the initial filter record. -/
def resetFilters (s : FlightState) : FlightState :=
  { s with filters := initialFilters }

/-- Action `selectDeparture`: set the departure, drop any return and error,
and lock the filters to the reversed route of the chosen flight.
(The trailing `fetchFlights()` is an external HTTP effect.) -/
def selectDeparture (flight : FlightInterface) (s : FlightState) : FlightState :=
  { s with
      selectedDeparture := some flight
      selectedReturn := none
      selectionError := none
      filters := { s.filters with
                     origin := flight.destinationAirportCode
                     destination := flight.originAirportCode } }

/-- Action `selectReturn`: record the tentative return and clear the error;
no validation happens here. -/
def selectReturn (flight : FlightInterface) (s : FlightState) : FlightState :=
  { s with selectedReturn := some flight, selectionError := none }

/-- Action `clearSelection`: null out the selection triple, then
`resetFilters`.  (The trailing `fetchFlights()` is external.) -/
def clearSelection (s : FlightState) : FlightState :=
  resetFilters
    { s with selectedDeparture := none, selectedReturn := none, selectionError := none }

/-- Action `validateAndProceed`: three checks in order, short-circuiting on
the first failure; on success the error is cleared and a navigation request
with both flight ids is produced. -/
def validateAndProceed (s : FlightState) : FlightState × Option NavigationRequest :=
  match s.selectedDeparture, s.selectedReturn with
  | none, _ =>
      ({ s with selectionError := some "Please select both departure and return flights." }, none)
  | _, none =>
      ({ s with selectionError := some "Please select both departure and return flights." }, none)
  | some dep, some ret =>
      if ret.originAirportCode != dep.destinationAirportCode
          || ret.destinationAirportCode != dep.originAirportCode then
        ({ s with selectionError := some "Return flight route does not match the departure flight." }, none)
      else if ret.departureTime < dep.arrivalTime then
        ({ s with selectionError := some "Return flight must depart after the departure flight arrives." }, none)
      else
        ({ s with selectionError := none },
         some { name := "booking-create"
                departureFlightId := dep.id
                returnFlightId := ret.id })

end FlightSel

namespace BookingFilter

/-- The fields of `BookingInterface` used by the booking store
(`src/src/stores/booking.store.ts`): all filter-relevant fields.  `status`
is the backend's numeric status code (1 = Unpaid, 2 = Paid, 3 = Cancelled,
4 = Rescheduled). -/
structure BookingInterface where
  id : String
  flightNumber : String
  route : String
  classType : String
  contactEmail : String
  contactPhone : String
  passengerCount : Nat
  status : Nat
  isDeleted : Bool
deriving DecidableEq, Repr

/-- The `BookingFilters` record of `booking.service.ts`, fully populated as
in the store's `state()` initializer. -/
structure BookingFilters where
  status : String
  showInactive : Bool
  search : String
  flightNumber : String
  classType : String
deriving DecidableEq, Repr

/-- The default criteria from the store's `state()` initializer (also what
`resetFilters` restores). -/
def initialFilters : BookingFilters :=
  { status := "all", showInactive := false, search := "", flightNumber := "", classType := "" }

/-- `searchTerm`: the search field trimmed and lower-cased. -/
def searchTermOf (f : BookingFilters) : String :=
  jsToLower (jsTrim f.search)

/-- `flightFilter`: the flight-number field trimmed and lower-cased. -/
def flightFilterOf (f : BookingFilters) : String :=
  jsToLower (jsTrim f.flightNumber)

/-- `statusFilter = state.filters.status || 'all'`: the empty string (and,
in TS, `undefined`) falls back to the sentinel `'all'`. -/
def statusFilterOf (f : BookingFilters) : String :=
  if f.status = "" then "all" else f.status

/-- The `statusMap` object literal: JS property lookup returning
`undefined` (`none`) off the four keys. -/
def statusMap (key : String) : Option Nat :=
  if key = "unpaid" then some 1
  else if key = "paid" then some 2
  else if key = "cancelled" then some 3
  else if key = "rescheduled" then some 4
  else none

/-- `normalize`: `(value ?? '').toString().toLowerCase()` on a string field. -/
def normalize (value : String) : String :=
  jsToLower value

/-- `matchesSearch`: empty term passes; otherwise some of the six fields
contains the term. -/
def matchesSearch (f : BookingFilters) (b : BookingInterface) : Bool :=
  searchTermOf f == "" ||
    [b.id, b.flightNumber, b.route, b.contactEmail, b.contactPhone, b.classType].any
      (fun field => jsIncludes (normalize field) (searchTermOf f))

/-- `matchesFlightNumber`: empty filter passes; a filter equal to the search
term passes; otherwise the flight number must contain the filter. -/
def matchesFlightNumber (f : BookingFilters) (b : BookingInterface) : Bool :=
  flightFilterOf f == "" ||
    flightFilterOf f == searchTermOf f ||
    jsIncludes (normalize b.flightNumber) (flightFilterOf f)

/-- `matchesStatus`: the `'all'` sentinel passes; otherwise
`booking.status === statusMap[statusFilter]` (strict equality against a
possibly-`undefined` lookup). -/
def matchesStatus (f : BookingFilters) (b : BookingInterface) : Bool :=
  statusFilterOf f == "all" || statusMap (statusFilterOf f) == some b.status

/-- `matchesClass`: empty class filter passes; otherwise exact match. -/
def matchesClass (f : BookingFilters) (b : BookingInterface) : Bool :=
  f.classType == "" || b.classType == f.classType

/-- `matchesInactive`: deleted bookings pass only when `showInactive`. -/
def matchesInactive (f : BookingFilters) (b : BookingInterface) : Bool :=
  f.showInactive || !b.isDeleted

/-- Getter `filteredBookings`: keep the bookings satisfying all five
predicates, in order. -/
def filteredBookings (bookings : List BookingInterface) (f : BookingFilters) :
    List BookingInterface :=
  bookings.filter (fun b =>
    matchesSearch f b &&
    matchesFlightNumber f b &&
    matchesStatus f b &&
    matchesClass f b &&
    matchesInactive f b)

/-- Action `updateSearchTerm`: sets both the search and the flight-number
filter to the same value. -/
def updateSearchTerm (value : String) (f : BookingFilters) : BookingFilters :=
  { f with search := value, flightNumber := value }

end BookingFilter

/-! ### Concrete data used by witnesses and counterexamples -/

namespace FlightSel

/-- A CGK→SIN departure arriving at instant 100. -/
def depW : FlightInterface :=
  { id := "F1", originAirportCode := "CGK", destinationAirportCode := "SIN",
    departureTime := 0, arrivalTime := 100 }

/-- A SIN→CGK return departing exactly at instant 100. -/
def retW : FlightInterface :=
  { id := "F2", originAirportCode := "SIN", destinationAirportCode := "CGK",
    departureTime := 100, arrivalTime := 200 }

/-- A round-trip-mode state with the given selections and an empty error. -/
def stateWith (d r : Option FlightInterface) : FlightState :=
  { flights := [], tripMode := TripMode.roundTrip, filters := initialFilters,
    selectedDeparture := d, selectedReturn := r, selectionError := none }

/-- A round-trip-mode state whose flight list holds exactly the zero-layover
return `retW` and whose departure is `depW`. -/
def stateNine : FlightState :=
  { flights := [retW], tripMode := TripMode.roundTrip, filters := initialFilters,
    selectedDeparture := some depW, selectedReturn := none, selectionError := none }

end FlightSel

/-! ### Theorems: round-trip selection coordinator -/

namespace FlightSel

/-- C1: `validateAndProceed` applies its three validation rules in order,
short-circuiting on the first failure: a missing departure or return yields
the both-flights error; a route mismatch yields the route error; a return
departing strictly before the departure arrives yields the timing error; and
when all three pass the error is cleared and a navigation request carrying
both flight identifiers is produced. -/
theorem validateAndProceed_rules (s : FlightState) :
    (s.selectedDeparture = none ∨ s.selectedReturn = none →
      validateAndProceed s =
        ({ s with selectionError := some "Please select both departure and return flights." },
         none)) ∧
    (∀ dep ret, s.selectedDeparture = some dep → s.selectedReturn = some ret →
      (ret.originAirportCode ≠ dep.destinationAirportCode ∨
        ret.destinationAirportCode ≠ dep.originAirportCode) →
      validateAndProceed s =
        ({ s with selectionError := some "Return flight route does not match the departure flight." },
         none)) ∧
    (∀ dep ret, s.selectedDeparture = some dep → s.selectedReturn = some ret →
      ret.originAirportCode = dep.destinationAirportCode →
      ret.destinationAirportCode = dep.originAirportCode →
      ret.departureTime < dep.arrivalTime →
      validateAndProceed s =
        ({ s with selectionError := some "Return flight must depart after the departure flight arrives." },
         none)) ∧
    (∀ dep ret, s.selectedDeparture = some dep → s.selectedReturn = some ret →
      ret.originAirportCode = dep.destinationAirportCode →
      ret.destinationAirportCode = dep.originAirportCode →
      dep.arrivalTime ≤ ret.departureTime →
      validateAndProceed s =
        ({ s with selectionError := none },
         some { name := "booking-create", departureFlightId := dep.id,
                returnFlightId := ret.id })) := by
  refine ⟨?_, ?_, ?_, ?_⟩
  · rintro (h | h) <;> cases hd : s.selectedDeparture <;> cases hr : s.selectedReturn <;>
      simp_all [validateAndProceed]
  · intro dep ret hd hr hmis
    have hb : (ret.originAirportCode != dep.destinationAirportCode ||
        ret.destinationAirportCode != dep.originAirportCode) = true := by
      simp only [Bool.or_eq_true, bne_iff_ne]
      exact hmis
    simp [validateAndProceed, hd, hr, hb]
  · intro dep ret hd hr h1 h2 ht
    have hb : (ret.originAirportCode != dep.destinationAirportCode ||
        ret.destinationAirportCode != dep.originAirportCode) = false := by
      simp [h1, h2]
    simp [validateAndProceed, hd, hr, hb, ht]
  · intro dep ret hd hr h1 h2 hle
    have hb : (ret.originAirportCode != dep.destinationAirportCode ||
        ret.destinationAirportCode != dep.originAirportCode) = false := by
      simp [h1, h2]
    simp [validateAndProceed, hd, hr, hb, not_lt.mpr hle]

/-- C1 witness: at the concrete state selecting `depW` and `retW`, all three
checks pass and the navigation request carries both identifiers. -/
theorem validateAndProceed_rules_witness :
    validateAndProceed (stateWith (some depW) (some retW)) =
      ({ stateWith (some depW) (some retW) with selectionError := none },
       some { name := "booking-create", departureFlightId := depW.id,
              returnFlightId := retW.id }) :=
  (validateAndProceed_rules (stateWith (some depW) (some retW))).2.2.2 depW retW
    rfl rfl rfl rfl (by decide)

/-- C2: with both flights selected and the route matching, validation fails
with the timing message exactly when the return departs strictly before the
departure arrives, and succeeds when the two instants are equal. -/
theorem validateAndProceed_timing (s : FlightState) (dep ret : FlightInterface)
    (hd : s.selectedDeparture = some dep) (hr : s.selectedReturn = some ret)
    (h1 : ret.originAirportCode = dep.destinationAirportCode)
    (h2 : ret.destinationAirportCode = dep.originAirportCode) :
    ((validateAndProceed s).1.selectionError =
        some "Return flight must depart after the departure flight arrives." ∧
      (validateAndProceed s).2 = none ↔
      ret.departureTime < dep.arrivalTime) ∧
    (ret.departureTime = dep.arrivalTime →
      (validateAndProceed s).1.selectionError = none ∧
      (validateAndProceed s).2 =
        some { name := "booking-create", departureFlightId := dep.id,
               returnFlightId := ret.id }) := by
  have hb : (ret.originAirportCode != dep.destinationAirportCode ||
      ret.destinationAirportCode != dep.originAirportCode) = false := by
    simp [h1, h2]
  by_cases hlt : ret.departureTime < dep.arrivalTime
  · constructor
    · simp [validateAndProceed, hd, hr, hb, hlt]
    · intro he
      exact absurd hlt (by simp [he])
  · constructor
    · simp [validateAndProceed, hd, hr, hb, hlt]
    · intro _
      simp [validateAndProceed, hd, hr, hb, hlt]

/-- C2 witness: `retW` departs exactly when `depW` arrives, and validation
succeeds there. -/
theorem validateAndProceed_timing_witness :
    (validateAndProceed (stateWith (some depW) (some retW))).1.selectionError = none ∧
    (validateAndProceed (stateWith (some depW) (some retW))).2 =
      some { name := "booking-create", departureFlightId := depW.id,
             returnFlightId := retW.id } :=
  (validateAndProceed_timing (stateWith (some depW) (some retW)) depW retW
    rfl rfl rfl rfl).2 rfl

/-- C4: `selectDeparture A; selectReturn B; selectDeparture C` leaves
departure `C`, no return and no error, and every `selectDeparture f` locks
the filters to the reversed route of `f`. -/
theorem selectDeparture_overrides (A B C : FlightInterface) (s : FlightState) :
    (selectDeparture C (selectReturn B (selectDeparture A s))).selectedDeparture = some C ∧
    (selectDeparture C (selectReturn B (selectDeparture A s))).selectedReturn = none ∧
    (selectDeparture C (selectReturn B (selectDeparture A s))).selectionError = none ∧
    ∀ f t, (selectDeparture f t).filters.origin = f.destinationAirportCode ∧
      (selectDeparture f t).filters.destination = f.originAirportCode :=
  ⟨rfl, rfl, rfl, fun _ _ => ⟨rfl, rfl⟩⟩

/-- C5: selecting a return while no departure is chosen does not install a
departure, and `validateAndProceed` from the resulting state fails with the
both-flights error instead of producing a navigation request. -/
theorem selectReturn_without_departure (s : FlightState) (f : FlightInterface)
    (h : s.selectedDeparture = none) :
    (selectReturn f s).selectedDeparture = none ∧
    (validateAndProceed (selectReturn f s)).1.selectionError =
      some "Please select both departure and return flights." ∧
    (validateAndProceed (selectReturn f s)).2 = none := by
  refine ⟨h, ?_, ?_⟩ <;> simp [validateAndProceed, selectReturn, h]

/-- C5 witness: from the empty state, `selectReturn retW` then validation
yields the both-flights error and no navigation. -/
theorem selectReturn_without_departure_witness :
    (selectReturn retW (stateWith none none)).selectedDeparture = none ∧
    (validateAndProceed (selectReturn retW (stateWith none none))).1.selectionError =
      some "Please select both departure and return flights." ∧
    (validateAndProceed (selectReturn retW (stateWith none none))).2 = none :=
  selectReturn_without_departure (stateWith none none) retW rfl

/-- C8: from any state, `clearSelection` yields the empty selection
(departure, return and error null, filters at their defaults), and iterating
it any further number of times gives the identical state. -/
theorem clearSelection_idempotent (s : FlightState) (n : Nat) :
    (clearSelection s).selectedDeparture = none ∧
    (clearSelection s).selectedReturn = none ∧
    (clearSelection s).selectionError = none ∧
    (clearSelection s).filters = initialFilters ∧
    clearSelection^[n + 1] s = clearSelection s := by
  refine ⟨rfl, rfl, rfl, rfl, ?_⟩
  induction n with
  | zero => rfl
  | succ n ih =>
      rw [Function.iterate_succ_apply', ih]
      rfl

/-- C9: in round-trip mode with a departure selected, `filteredFlights`
keeps exactly the flights departing strictly after the departure arrives;
hence a flight departing exactly at the arrival instant is excluded from the
candidate list even though, on a matching route, `validateAndProceed` would
accept it as the return. -/
theorem filteredFlights_strict (s : FlightState) (dep : FlightInterface)
    (hm : s.tripMode = TripMode.roundTrip) (hd : s.selectedDeparture = some dep) :
    (∀ f, f ∈ filteredFlights s ↔ f ∈ s.flights ∧ dep.arrivalTime < f.departureTime) ∧
    (∀ f, f.departureTime = dep.arrivalTime →
      f ∉ filteredFlights s ∧
      (f.originAirportCode = dep.destinationAirportCode →
        f.destinationAirportCode = dep.originAirportCode →
        (validateAndProceed { s with selectedReturn := some f }).1.selectionError = none ∧
        (validateAndProceed { s with selectedReturn := some f }).2 =
          some { name := "booking-create", departureFlightId := dep.id,
                 returnFlightId := f.id })) := by
  have hmem : ∀ f, f ∈ filteredFlights s ↔
      f ∈ s.flights ∧ dep.arrivalTime < f.departureTime := by
    intro f
    simp [filteredFlights, hm, hd, List.mem_filter]
  refine ⟨hmem, ?_⟩
  intro f ht
  constructor
  · intro hin
    exact absurd ((hmem f).mp hin).2 (by simp [ht])
  · intro h1 h2
    have hb : (f.originAirportCode != dep.destinationAirportCode ||
        f.destinationAirportCode != dep.originAirportCode) = false := by
      simp [h1, h2]
    have hnlt : ¬ f.departureTime < dep.arrivalTime := by
      simp [ht]
    simp [validateAndProceed, hd, hb, hnlt]

/-- C9 witness: in `stateNine` the zero-layover return `retW` is excluded
from the candidate list, yet validation would accept it. -/
theorem filteredFlights_strict_witness :
    retW ∉ filteredFlights stateNine ∧
    (validateAndProceed { stateNine with selectedReturn := some retW }).1.selectionError =
      none ∧
    (validateAndProceed { stateNine with selectedReturn := some retW }).2 =
      some { name := "booking-create", departureFlightId := depW.id,
             returnFlightId := retW.id } :=
  ⟨((filteredFlights_strict stateNine depW rfl rfl).2 retW rfl).1,
   ((filteredFlights_strict stateNine depW rfl rfl).2 retW rfl).2 rfl rfl⟩

end FlightSel

/-! ### Theorems: booking query filter -/

namespace BookingFilter

/-- The two bookings of the spec's combined-predicate test. -/
def b1Ex : BookingInterface :=
  { id := "B1", flightNumber := "GA100", route := "CGK -> SIN", classType := "Economy",
    contactEmail := "b1@mail.test", contactPhone := "0811", passengerCount := 1,
    status := 2, isDeleted := false }

/-- Second booking of the combined-predicate test: Business class, Unpaid. -/
def b2Ex : BookingInterface :=
  { id := "B2", flightNumber := "GA100", route := "CGK -> SIN", classType := "Business",
    contactEmail := "b2@mail.test", contactPhone := "0812", passengerCount := 1,
    status := 1, isDeleted := false }

/-- The criteria {status: 'paid', classType: 'Economy'}, other fields neutral. -/
def paidEconomy : BookingFilters :=
  { status := "paid", showInactive := false, search := "", flightNumber := "",
    classType := "Economy" }

/-- A plain non-deleted booking used by counterexamples. -/
def activeBooking : BookingInterface :=
  { id := "B0", flightNumber := "GA1", route := "CGK -> SIN", classType := "Economy",
    contactEmail := "b0@mail.test", contactPhone := "0810", passengerCount := 1,
    status := 2, isDeleted := false }

/-- Criteria whose search term and flight-number filter are both "zz". -/
def zzFilters : BookingFilters :=
  { status := "all", showInactive := false, search := "zz", flightNumber := "zz",
    classType := "" }

/-- Criteria whose status selector is the empty string, other fields neutral. -/
def emptyStatusFilters : BookingFilters :=
  { status := "", showInactive := false, search := "", flightNumber := "",
    classType := "" }

/-- Criteria whose status selector is an unmapped non-empty word. -/
def bogusStatusFilters : BookingFilters :=
  { status := "bogus", showInactive := false, search := "", flightNumber := "",
    classType := "" }

/-- C3 counterexample: with search term and flight-number filter both "zz",
the flight-number predicate passes a booking whose flight number "GA100"
does not contain "zz" — the `flightFilter === searchTerm` disjunct fires. -/
theorem matchesFlightNumber_not_substring :
    flightFilterOf zzFilters ≠ "" ∧
    matchesFlightNumber zzFilters activeBooking = true ∧
    jsIncludes (normalize activeBooking.flightNumber) (flightFilterOf zzFilters) = false := by
  refine ⟨by decide, by decide, by decide⟩

/-- C3 amended: an (after trimming) empty flight-number filter always
passes; a non-empty one passes exactly when it equals the trimmed
lower-cased search term or the booking's flight number contains it as a
case-insensitive substring. -/
theorem matchesFlightNumber_spec (f : BookingFilters) (b : BookingInterface) :
    (flightFilterOf f = "" → matchesFlightNumber f b = true) ∧
    (flightFilterOf f ≠ "" →
      (matchesFlightNumber f b = true ↔
        flightFilterOf f = searchTermOf f ∨
        jsIncludes (normalize b.flightNumber) (flightFilterOf f) = true)) := by
  constructor
  · intro h
    simp [matchesFlightNumber, h]
  · intro h
    simp [matchesFlightNumber, h]

/-- C6: with the neutral criteria the filter returns exactly the
non-deleted bookings in order, and with `showInactive := true` it returns
every booking. -/
theorem filteredBookings_neutral (bookings : List BookingInterface) :
    filteredBookings bookings initialFilters =
      bookings.filter (fun b => !b.isDeleted) ∧
    filteredBookings bookings { initialFilters with showInactive := true } = bookings := by
  constructor
  · rfl
  · exact (List.filter_true bookings)

/-- C7: a booking is in the filtered result exactly when it is in the input
and satisfies all five predicates; on the spec's two-booking example with
criteria {status: 'paid', classType: 'Economy'} the result is exactly
`[b1Ex]`. -/
theorem filteredBookings_and_semantics :
    (∀ (bookings : List BookingInterface) (f : BookingFilters) (b : BookingInterface),
      b ∈ filteredBookings bookings f ↔
        b ∈ bookings ∧ matchesSearch f b = true ∧ matchesFlightNumber f b = true ∧
          matchesStatus f b = true ∧ matchesClass f b = true ∧
          matchesInactive f b = true) ∧
    filteredBookings [b1Ex, b2Ex] paidEconomy = [b1Ex] := by
  constructor
  · intro bookings f b
    simp [filteredBookings, List.mem_filter, and_assoc]
  · decide

/-- C10 counterexample: the empty-string status selector is neither 'all'
nor a mapped key, yet the filter is not empty — `status || 'all'` makes the
empty selector fall back to 'all'. -/
theorem filteredBookings_empty_status_cex :
    emptyStatusFilters.status ≠ "all" ∧
    statusMap emptyStatusFilters.status = none ∧
    filteredBookings [activeBooking] emptyStatusFilters = [activeBooking] := by
  refine ⟨by decide, by decide, by decide⟩

/-- C10 amended: a non-empty status selector that is neither 'all' nor one
of the four mapped keys makes the filter return the empty list; the empty
selector instead falls back to 'all'. -/
theorem filteredBookings_unknown_status (bookings : List BookingInterface)
    (f : BookingFilters) (h0 : f.status ≠ "") (h1 : f.status ≠ "all")
    (h2 : statusMap f.status = none) :
    filteredBookings bookings f = [] := by
  have hs : ∀ b, matchesStatus f b = false := by
    intro b
    simp [matchesStatus, statusFilterOf, h0, h1, h2]
  rw [filteredBookings, List.filter_eq_nil_iff]
  intro b _
  simp [hs b]

/-- C10 witness: the unmapped selector "bogus" empties the filter result. -/
theorem filteredBookings_unknown_status_witness :
    filteredBookings [activeBooking] bogusStatusFilters = [] :=
  filteredBookings_unknown_status [activeBooking] bogusStatusFilters
    (by decide) (by decide) (by decide)

end BookingFilter
